import Mathlib

/-!
# Verification of `run_challenge.py` (io-challenge-sbpo-2025)

A shallow embedding of the benchmark-driver script `src/run_challenge.py`.
The script is a sequential orchestration loop: it kills stale solver
processes, builds a Java solver, then for each `.txt` file in an input
directory spawns a child process and halts the whole run on the first
failure.  We model the observable behaviour as a trace of events
(process-kill attempts, directory creation, child-process spawns) together
with an optional raised error, parameterised by an environment that supplies
each external process's exit code and captured stderr.
-/

namespace RunChallenge

/-- The module-level feature toggles and constants of `run_challenge.py`
(lines 8-17): `USE_CPLEX`, `USE_OR_TOOLS`, `USE_TIMEOUT`, `MAX_RUNNING_TIME`,
and the two expanded library locations `CPLEX_PATH` and `OR_TOOLS_PATH`. -/
structure Config where
  useCplex : Bool
  useOrTools : Bool
  useTimeout : Bool
  maxRunningTime : String
  cplexPath : String
  orToolsPath : String
  deriving Repr, DecidableEq

/-- `CPLEX_PATH = os.path.expandvars("$HOME/CPLEX_Studio2211/opl/bin/arm64_osx/")`
(line 8); `home` is the expansion of `$HOME` (the literal `"$HOME"` when the
variable is unset, so the result is never empty). -/
def CPLEX_PATH (home : String) : String :=
  home ++ "/CPLEX_Studio2211/opl/bin/arm64_osx/"

/-- `OR_TOOLS_PATH = os.path.expandvars("$HOME/Documents/or-tools/build/lib/")`
(line 9). -/
def OR_TOOLS_PATH (home : String) : String :=
  home ++ "/Documents/or-tools/build/lib/"

/-- The configuration as written in the source (lines 8-17):
both libraries enabled, timeout disabled, duration `"605s"`. -/
def sourceConfig (home : String) : Config :=
  ⟨true, true, false, "605s", CPLEX_PATH home, OR_TOOLS_PATH home⟩

/-- The combined native-library search path (lines 63-70 of
`run_benchmark`): both enabled gives `OR_TOOLS_PATH:CPLEX_PATH`, one enabled
gives that library's path, neither gives `None`. -/
def librariesOf (c : Config) : Option String :=
  if c.useCplex && c.useOrTools then some (c.orToolsPath ++ ":" ++ c.cplexPath)
  else if c.useCplex then some c.cplexPath
  else if c.useOrTools then some c.orToolsPath
  else none

/-- Python's `str.endswith(suffix)`: a suffix test on the character list. -/
def pyEndsWith (s suffix : String) : Bool :=
  decide (suffix.data <:+ s.data)

/-- Python's `str.startswith(p)`: a prefix test on the character list. -/
def pyBeginsWith (s p : String) : Bool :=
  decide (p.data <+: s.data)

/-- `os.path.join(a, b)` for two POSIX components: an absolute `b` replaces
`a`; otherwise the parts are glued with a single `/` unless `a` is empty or
already ends in `/`. -/
def osJoin (a b : String) : String :=
  if pyBeginsWith b "/" then b
  else if a = "" then b
  else if pyEndsWith a "/" then a ++ b
  else a ++ "/" ++ b

/-- Whether some character strictly between the scan position and the last
path separator is not a dot: `posixpath.splitext` only recognises an
extension when the basename has a non-dot character before the final dot
(so dotfiles like `.txt` have no extension).  The argument is the reversed
list of characters preceding the candidate dot. -/
def stemHasNonDot (r : List Char) : Bool :=
  (r.takeWhile (fun c => c ≠ '/')).any (fun c => c ≠ '.')

/-- Scan the reversed character list of a path for the last dot of the
basename, mirroring `posixpath.splitext`: stop at a path separator (the last
dot would belong to a directory component), and at the first dot from the
end check `stemHasNonDot`.  Returns `(reversed base, extension)` on a split.
`acc` accumulates the extension characters already passed, in forward
order. -/
def splitScan (acc : List Char) : List Char → Option (List Char × List Char)
  | [] => none
  | c :: r =>
    if c = '/' then none
    else if c = '.' then
      if stemHasNonDot r then some (r, c :: acc) else none
    else splitScan (c :: acc) r

/-- `os.path.splitext(p)` (POSIX): split `p` into `(root, ext)` at the last
dot of the basename, provided a non-dot character precedes it; otherwise
`(p, "")`. -/
def splitext (p : String) : String × String :=
  match splitScan [] p.data.reverse with
  | some (rbase, ext) => (String.mk rbase.reverse, String.mk ext)
  | none => (p, "")

/-- The derived output file name (line 87):
`f"{os.path.splitext(filename)[0]}.txt"`. -/
def outName (filename : String) : String :=
  (splitext filename).1 ++ ".txt"

/-- The outcome of one external process, as `subprocess.run` reports it:
the exit status and the captured error stream. -/
structure ProcResult where
  returncode : Int
  stderr : String
  deriving Repr, DecidableEq

/-- One entry of `psutil.process_iter(['pid', 'cmdline'])`: pid, the
command line (`None` when unavailable), and whether `proc.kill()` would
succeed (false models the `except` branch of lines 30-33). -/
structure ProcInfo where
  pid : Nat
  cmdline : Option (List String)
  killable : Bool
  deriving Repr, DecidableEq


/-- Python's `needle in haystack` on strings: substring (contiguous infix)
containment, as a test on the character lists. -/
def containsSubstr (s pat : String) : Bool :=
  decide (pat.data <:+: s.data)

/-- The test of line 28: the command line is truthy (present and non-empty)
and `'ChallengeSBPO2025-1.0.jar' in ' '.join(cmdline)`. -/
def mentionsJar (p : ProcInfo) : Bool :=
  match p.cmdline with
  | some l => !l.isEmpty &&
      containsSubstr (String.intercalate " " l) "ChallengeSBPO2025-1.0.jar"
  | none => false

/-- Observable side effects of the script: a `proc.kill()` attempt on a
stale process (line 31), a logged kill failure (line 33), the
`os.makedirs(..., exist_ok=True)` call (line 60), a synchronous
`subprocess.run` of the child command with stderr captured (lines 104-109),
and an error message printed to the operator (lines 47-48). -/
inductive Event where
  | killAttempt (pid : Nat)
  | killFailed (pid : Nat)
  | makeDirs (path : String)
  | spawn (cmd : List String)
  | printedErr (msg : String)
  deriving Repr, DecidableEq

/-- The two exceptions the loop can raise: `TimeoutError(error_msg)`
(line 115) and `RuntimeError(...)` (line 120), each carrying its message
string. -/
inductive RunError where
  | timeout (msg : String)
  | runtime (msg : String)
  deriving Repr, DecidableEq

/-- `kill_existing_java_instances` (lines 24-33): for every scanned process
whose command line references the packaged artifact, attempt to kill it; a
failed kill is logged and the scan continues. -/
def kill_existing_java_instances : List ProcInfo → List Event
  | [] => []
  | p :: ps =>
    if mentionsJar p then
      (if p.killable then [Event.killAttempt p.pid]
       else [Event.killAttempt p.pid, Event.killFailed p.pid])
        ++ kill_existing_java_instances ps
    else kill_existing_java_instances ps

/-- The timeout-wrapper invocation parts (lines 73-76): when `USE_TIMEOUT`
is enabled, the wrapper binary (`gtimeout` on Darwin, `timeout` elsewhere)
followed by `MAX_RUNNING_TIME`; otherwise nothing. -/
def timeoutWrap (c : Config) (osName : String) : List String :=
  if c.useTimeout then
    [if osName = "Darwin" then "gtimeout" else "timeout", c.maxRunningTime]
  else []

/-- Lines 90-100: `["java"]`, the library-path flag appended only when
`libraries` is truthy (a non-`None`, non-empty string), then the fixed
flags, the `-jar` flag with the artifact path, and the two positional
paths. -/
def javaCmd (libraries : Option String) (jarPath inputFile outputFile : String) :
    List String :=
  ["java"] ++
    (match libraries with
     | some l => if l = "" then [] else ["-Djava.library.path=" ++ l]
     | none => []) ++
    ["--enable-native-access=ALL-UNNAMED", "-Xmx16g", "-jar", jarPath,
      inputFile, outputFile]

/-- The full command for one input file `f` (line 102): the timeout-wrapper
parts followed by the Java invocation built from
`input_file = os.path.join(input_folder, f)` (line 86) and
`output_file = os.path.join(output_folder, splitext(f)[0] + ".txt")`
(line 87). -/
def cmdFor (c : Config) (osName : String) (libraries : Option String)
    (jarPath inputDir outputDir f : String) : List String :=
  timeoutWrap c osName ++
    javaCmd libraries jarPath (osJoin inputDir f) (osJoin outputDir (outName f))

/-- The `TimeoutError` message of line 113. -/
def timeoutMsg (c : Config) (inputFile : String) : String :=
  "Execution timed out after " ++ c.maxRunningTime ++ " for " ++ inputFile

/-- The `RuntimeError` message of line 120. -/
def runtimeMsg (inputFile stderr : String) : String :=
  "Execution failed for " ++ inputFile ++ ": " ++ stderr

/-- The loop of lines 82-120 over the entries of `os.listdir(input_folder)`:
entries not ending in `".txt"` are skipped (line 83); for each remaining
entry the child command is built and run synchronously (`exec` supplies its
result), and the exit status is classified — status 124 with `USE_TIMEOUT`
enabled raises `TimeoutError` (lines 112-115), any other non-zero status
raises `RuntimeError` (lines 117-120), either of which halts the loop;
otherwise the loop proceeds to the next entry.  Returns the spawn trace and
the raised error, if any. -/
def runFiles (c : Config) (osName : String) (libraries : Option String)
    (jarPath inputDir outputDir : String) (exec : String → ProcResult) :
    List String → List Event × Option RunError
  | [] => ([], none)
  | f :: rest =>
    if pyEndsWith f ".txt" then
      let cmd := cmdFor c osName libraries jarPath inputDir outputDir f
      let r := exec f
      if c.useTimeout = true ∧ r.returncode = 124 then
        ([Event.spawn cmd], some (RunError.timeout (timeoutMsg c (osJoin inputDir f))))
      else if r.returncode ≠ 0 then
        ([Event.spawn cmd],
          some (RunError.runtime (runtimeMsg (osJoin inputDir f) r.stderr)))
      else
        let next := runFiles c osName libraries jarPath inputDir outputDir exec rest
        (Event.spawn cmd :: next.1, next.2)
    else runFiles c osName libraries jarPath inputDir outputDir exec rest

/-- The artifact path of line 79:
`os.path.join(source_folder, "target", "ChallengeSBPO2025-1.0.jar")`. -/
def jarPathOf (sourceFolder : String) : String :=
  osJoin (osJoin sourceFolder "target") "ChallengeSBPO2025-1.0.jar"

/-- `run_benchmark` (lines 55-120): kill stale instances, ensure the output
folder exists, compute the library path and timeout wrapper, then run the
per-file loop.  `procs` is the scanned process table and `listing` the
entries of `os.listdir(input_folder)`. -/
def run_benchmark (c : Config) (osName : String) (procs : List ProcInfo)
    (sourceFolder inputFolder outputFolder : String)
    (listing : List String) (exec : String → ProcResult) :
    List Event × Option RunError :=
  let body := runFiles c osName (librariesOf c) (jarPathOf sourceFolder)
    inputFolder outputFolder exec listing
  (kill_existing_java_instances procs ++ Event.makeDirs outputFolder :: body.1,
    body.2)

/-- `compile_code` (lines 36-52): run `mvn clean package`, return whether it
exited zero; on failure the captured stderr is printed.  `mvn` is the build
tool's result. -/
def compile_code (mvn : ProcResult) : Bool × List Event :=
  if mvn.returncode = 0 then (true, [])
  else (false, [Event.printedErr mvn.stderr])

/-- The `__main__` block (lines 123-134) after argument handling: compile,
and only on success run the benchmark. -/
def mainRun (c : Config) (osName : String) (procs : List ProcInfo)
    (sourceFolder inputFolder outputFolder : String) (listing : List String)
    (mvn : ProcResult) (exec : String → ProcResult) :
    List Event × Option RunError :=
  let comp := compile_code mvn
  if comp.1 then
    let bench := run_benchmark c osName procs sourceFolder inputFolder
      outputFolder listing exec
    (comp.2 ++ bench.1, bench.2)
  else (comp.2, none)

/-- Unfolding lemma for the loop: an entry without the `.txt` suffix is
skipped (line 83) and contributes nothing to the trace. -/
theorem runFiles_skip (c : Config) (osName : String) (libraries : Option String)
    (jarPath inputDir outputDir : String) (exec : String → ProcResult)
    (f : String) (rest : List String) (hf : pyEndsWith f ".txt" = false) :
    runFiles c osName libraries jarPath inputDir outputDir exec (f :: rest) =
      runFiles c osName libraries jarPath inputDir outputDir exec rest := by
  simp [runFiles, hf]

/-- Unfolding lemma for the loop: a `.txt` entry whose child process exits
zero contributes one spawn event and the loop continues. -/
theorem runFiles_ok (c : Config) (osName : String) (libraries : Option String)
    (jarPath inputDir outputDir : String) (exec : String → ProcResult)
    (f : String) (rest : List String) (hf : pyEndsWith f ".txt" = true)
    (hr : (exec f).returncode = 0) :
    runFiles c osName libraries jarPath inputDir outputDir exec (f :: rest) =
      (Event.spawn (cmdFor c osName libraries jarPath inputDir outputDir f) ::
          (runFiles c osName libraries jarPath inputDir outputDir exec rest).1,
        (runFiles c osName libraries jarPath inputDir outputDir exec rest).2) := by
  simp [runFiles, hf, hr]

/-- A run over a block of entries that all either lack the suffix or
succeed produces exactly one spawn per suffix-matching entry, in listing
order, and then continues with the remaining entries. -/
theorem runFiles_clean (c : Config) (osName : String) (libraries : Option String)
    (jarPath inputDir outputDir : String) (exec : String → ProcResult)
    (good rest : List String)
    (h : ∀ g ∈ good, pyEndsWith g ".txt" = true → (exec g).returncode = 0) :
    runFiles c osName libraries jarPath inputDir outputDir exec (good ++ rest) =
      ((good.filter (fun g => pyEndsWith g ".txt")).map
          (fun g => Event.spawn (cmdFor c osName libraries jarPath inputDir outputDir g)) ++
          (runFiles c osName libraries jarPath inputDir outputDir exec rest).1,
        (runFiles c osName libraries jarPath inputDir outputDir exec rest).2) := by
  induction good with
  | nil => simp
  | cons g gs ih =>
    have hgs : ∀ x ∈ gs, pyEndsWith x ".txt" = true → (exec x).returncode = 0 :=
      fun x hx => h x (List.mem_cons_of_mem g hx)
    cases hb : pyEndsWith g ".txt" with
    | false =>
      rw [List.cons_append,
        runFiles_skip c osName libraries jarPath inputDir outputDir exec g (gs ++ rest) hb,
        ih hgs]
      simp [hb]
    | true =>
      rw [List.cons_append,
        runFiles_ok c osName libraries jarPath inputDir outputDir exec g (gs ++ rest) hb
          (h g (List.mem_cons_self g gs) hb),
        ih hgs]
      simp [hb]

/-- Every spawn event the loop emits comes from a listing entry with the
`.txt` suffix, with exactly the command built for that entry. -/
theorem runFiles_spawn_src (c : Config) (osName : String) (libraries : Option String)
    (jarPath inputDir outputDir : String) (exec : String → ProcResult)
    (listing : List String) (cmd : List String)
    (hmem : Event.spawn cmd ∈
      (runFiles c osName libraries jarPath inputDir outputDir exec listing).1) :
    ∃ f, f ∈ listing ∧ pyEndsWith f ".txt" = true ∧
      cmd = cmdFor c osName libraries jarPath inputDir outputDir f := by
  induction listing with
  | nil => simp [runFiles] at hmem
  | cons g gs ih =>
    cases hb : pyEndsWith g ".txt" with
    | false =>
      rw [runFiles_skip c osName libraries jarPath inputDir outputDir exec g gs hb] at hmem
      obtain ⟨f, hf₁, hf₂, hf₃⟩ := ih hmem
      exact ⟨f, List.mem_cons_of_mem g hf₁, hf₂, hf₃⟩
    | true =>
      by_cases ht : c.useTimeout = true ∧ (exec g).returncode = 124
      · simp only [runFiles, hb, if_pos ht] at hmem
        simp only [if_true, List.mem_singleton] at hmem
        rcases hmem with hmem
        cases hmem
        exact ⟨g, List.mem_cons_self g gs, hb, rfl⟩
      · by_cases hz : (exec g).returncode = 0
        · rw [runFiles_ok c osName libraries jarPath inputDir outputDir exec g gs hb hz] at hmem
          rcases List.mem_cons.mp hmem with hmem | hmem
          · cases hmem
            exact ⟨g, List.mem_cons_self g gs, hb, rfl⟩
          · obtain ⟨f, hf₁, hf₂, hf₃⟩ := ih hmem
            exact ⟨f, List.mem_cons_of_mem g hf₁, hf₂, hf₃⟩
        · simp only [runFiles, hb, if_pos, if_neg ht, if_true, hz, ne_eq,
            not_false_iff, List.mem_singleton] at hmem
          rcases hmem with hmem
          · cases hmem
            exact ⟨g, List.mem_cons_self g gs, hb, rfl⟩

/-- **C3.** For each of the four enabled-library combinations the constructed
native-library search path (lines 63-70) is as expected: no path when neither
library is enabled, the single enabled library's configured location when
exactly one is enabled, and when both are enabled the two locations joined by
`":"` with the first library (OR-Tools, the first operand of the
concatenation) before the second (CPLEX). -/
theorem C3_library_path (c : Config) :
    (c.useCplex = false → c.useOrTools = false → librariesOf c = none) ∧
    (c.useCplex = true → c.useOrTools = false → librariesOf c = some c.cplexPath) ∧
    (c.useCplex = false → c.useOrTools = true → librariesOf c = some c.orToolsPath) ∧
    (c.useCplex = true → c.useOrTools = true →
      librariesOf c = some (c.orToolsPath ++ ":" ++ c.cplexPath)) := by
  refine ⟨?_, ?_, ?_, ?_⟩ <;> intro h₁ h₂ <;> simp [librariesOf, h₁, h₂]

/-- Witness for C3 at a concrete configuration with both libraries
enabled. -/
theorem C3_library_path_witness :
    librariesOf ⟨true, true, false, "605s", "/cp", "/or"⟩ =
      some ("/or" ++ ":" ++ "/cp") :=
  (C3_library_path ⟨true, true, false, "605s", "/cp", "/or"⟩).2.2.2 rfl rfl

/-- **C1.** Exit status 124 is classified as a timeout failure exactly when
the timeout feature is enabled (lines 112-120): after a block of skipped or
successful entries, a `.txt` entry whose process exits 124 ends the run with
a `TimeoutError` carrying the configured duration and the input path when
`USE_TIMEOUT` is enabled, and with a generic `RuntimeError` when it is
disabled; in either case the trace stops at that spawn, so no later input
file is processed. -/
theorem C1_timeout_code_classification (c : Config) (osName : String)
    (libraries : Option String) (jarPath inputDir outputDir : String)
    (exec : String → ProcResult) (good rest : List String) (f : String)
    (hgood : ∀ g ∈ good, pyEndsWith g ".txt" = true → (exec g).returncode = 0)
    (hf : pyEndsWith f ".txt" = true) (hr : (exec f).returncode = 124) :
    (c.useTimeout = true →
      runFiles c osName libraries jarPath inputDir outputDir exec (good ++ f :: rest) =
        ((good.filter (fun g => pyEndsWith g ".txt")).map
            (fun g => Event.spawn (cmdFor c osName libraries jarPath inputDir outputDir g)) ++
            [Event.spawn (cmdFor c osName libraries jarPath inputDir outputDir f)],
          some (RunError.timeout
            ("Execution timed out after " ++ c.maxRunningTime ++ " for " ++
              osJoin inputDir f)))) ∧
    (c.useTimeout = false →
      runFiles c osName libraries jarPath inputDir outputDir exec (good ++ f :: rest) =
        ((good.filter (fun g => pyEndsWith g ".txt")).map
            (fun g => Event.spawn (cmdFor c osName libraries jarPath inputDir outputDir g)) ++
            [Event.spawn (cmdFor c osName libraries jarPath inputDir outputDir f)],
          some (RunError.runtime
            ("Execution failed for " ++ osJoin inputDir f ++ ": " ++
              (exec f).stderr)))) := by
  constructor <;> intro ht <;>
    rw [runFiles_clean c osName libraries jarPath inputDir outputDir exec good
      (f :: rest) hgood] <;>
    simp [runFiles, hf, hr, ht, timeoutMsg, runtimeMsg]

/-- Witness for C1: one input file, timeout enabled, exit status 124. -/
theorem C1_witness :
    runFiles ⟨true, true, true, "605s", "/cp", "/or"⟩ "Linux" none "/j" "/in" "/out"
        (fun _ => ⟨124, "err"⟩) ["a.txt"] =
      ([Event.spawn (cmdFor ⟨true, true, true, "605s", "/cp", "/or"⟩ "Linux" none
          "/j" "/in" "/out" "a.txt")],
        some (RunError.timeout
          ("Execution timed out after " ++ "605s" ++ " for " ++ osJoin "/in" "a.txt"))) :=
  (C1_timeout_code_classification ⟨true, true, true, "605s", "/cp", "/or"⟩ "Linux"
      none "/j" "/in" "/out" (fun _ => ⟨124, "err"⟩) [] [] "a.txt"
      (by simp) (by decide) rfl).1 rfl

/-- **C2.** The first non-zero, non-timeout exit halts the batch
(lines 104-120): after a block of skipped or successful entries, a `.txt`
entry whose process exits non-zero (and is not classified as a timeout)
ends the run with a `RuntimeError` carrying the captured stderr and that
entry's input path; the trace is exactly one spawn per processed entry and
stops there, so later input files are never invoked, with no retry and no
partial-results accounting. -/
theorem C2_first_failure_halts (c : Config) (osName : String)
    (libraries : Option String) (jarPath inputDir outputDir : String)
    (exec : String → ProcResult) (good rest : List String) (f : String)
    (hgood : ∀ g ∈ good, pyEndsWith g ".txt" = true → (exec g).returncode = 0)
    (hf : pyEndsWith f ".txt" = true) (hr : (exec f).returncode ≠ 0)
    (hnt : c.useTimeout = false ∨ (exec f).returncode ≠ 124) :
    runFiles c osName libraries jarPath inputDir outputDir exec (good ++ f :: rest) =
      ((good.filter (fun g => pyEndsWith g ".txt")).map
          (fun g => Event.spawn (cmdFor c osName libraries jarPath inputDir outputDir g)) ++
          [Event.spawn (cmdFor c osName libraries jarPath inputDir outputDir f)],
        some (RunError.runtime
          ("Execution failed for " ++ osJoin inputDir f ++ ": " ++ (exec f).stderr))) := by
  rw [runFiles_clean c osName libraries jarPath inputDir outputDir exec good
    (f :: rest) hgood]
  have hcond : ¬(c.useTimeout = true ∧ (exec f).returncode = 124) := by
    rcases hnt with h | h
    · rintro ⟨h1, -⟩
      rw [h] at h1
      exact Bool.false_ne_true h1
    · rintro ⟨-, h2⟩
      exact h h2
  simp [runFiles, hf, hcond, hr, runtimeMsg]

/-- Witness for C2, matching the spec's example: the third invocation of
five fails with exit status 2; the trace contains exactly the first three
spawns and a `RuntimeError` naming the third input file. -/
theorem C2_witness :
    runFiles ⟨true, true, false, "605s", "/cp", "/or"⟩ "Linux" none "/j" "/in" "/out"
        (fun f => if f = "c.txt" then ⟨2, "boom"⟩ else ⟨0, ""⟩)
        (["a.txt", "b.txt"] ++ "c.txt" :: ["d.txt", "e.txt"]) =
      ([Event.spawn (cmdFor ⟨true, true, false, "605s", "/cp", "/or"⟩ "Linux" none
            "/j" "/in" "/out" "a.txt"),
        Event.spawn (cmdFor ⟨true, true, false, "605s", "/cp", "/or"⟩ "Linux" none
            "/j" "/in" "/out" "b.txt"),
        Event.spawn (cmdFor ⟨true, true, false, "605s", "/cp", "/or"⟩ "Linux" none
            "/j" "/in" "/out" "c.txt")],
        some (RunError.runtime
          ("Execution failed for " ++ osJoin "/in" "c.txt" ++ ": " ++ "boom"))) :=
  C2_first_failure_halts ⟨true, true, false, "605s", "/cp", "/or"⟩ "Linux" none
    "/j" "/in" "/out" (fun f => if f = "c.txt" then ⟨2, "boom"⟩ else ⟨0, ""⟩)
    ["a.txt", "b.txt"] ["d.txt", "e.txt"] "c.txt"
    (by decide) (by decide) (by decide) (Or.inl rfl)

/-- **C5.** Only entries with the `.txt` suffix produce invocation attempts
(lines 82-83): when every matching entry succeeds, the trace is exactly one
spawn per suffix-matching entry of the (non-recursive) listing, in order,
with no error; and unconditionally — for any environment — every spawn
event in the trace comes from a suffix-matching listing entry. -/
theorem C5_only_txt_entries (c : Config) (osName : String)
    (libraries : Option String) (jarPath inputDir outputDir : String)
    (exec : String → ProcResult) (listing : List String)
    (h : ∀ f ∈ listing, pyEndsWith f ".txt" = true → (exec f).returncode = 0) :
    runFiles c osName libraries jarPath inputDir outputDir exec listing =
      ((listing.filter (fun f => pyEndsWith f ".txt")).map
          (fun f => Event.spawn (cmdFor c osName libraries jarPath inputDir outputDir f)),
        none) ∧
    (∀ (other : String → ProcResult) (cmd : List String),
      Event.spawn cmd ∈
        (runFiles c osName libraries jarPath inputDir outputDir other listing).1 →
      ∃ f, f ∈ listing ∧ pyEndsWith f ".txt" = true ∧
        cmd = cmdFor c osName libraries jarPath inputDir outputDir f) := by
  constructor
  · have hc := runFiles_clean c osName libraries jarPath inputDir outputDir exec
      listing [] h
    rw [List.append_nil] at hc
    rw [hc]
    simp [runFiles]
  · intro other cmd hmem
    exact runFiles_spawn_src c osName libraries jarPath inputDir outputDir other
      listing cmd hmem

/-- Witness for C5: a listing with one matching and one non-matching entry
yields exactly one spawn, for the matching entry. -/
theorem C5_witness :
    runFiles ⟨true, true, false, "605s", "/cp", "/or"⟩ "Linux" none "/j" "/in" "/out"
        (fun _ => ⟨0, ""⟩) ["a.txt", "notes.md"] =
      ([Event.spawn (cmdFor ⟨true, true, false, "605s", "/cp", "/or"⟩ "Linux" none
          "/j" "/in" "/out" "a.txt")], none) :=
  (C5_only_txt_entries ⟨true, true, false, "605s", "/cp", "/or"⟩ "Linux" none
    "/j" "/in" "/out" (fun _ => ⟨0, ""⟩) ["a.txt", "notes.md"] (by decide)).1

/-- **C10.** A listing with no `.txt` entry (in particular an empty
directory) makes `run_benchmark` finish normally: the stale-process sweep
still runs, the output directory is still created, but no child process is
spawned and no error is raised. -/
theorem C10_no_matching_inputs (c : Config) (osName : String)
    (procs : List ProcInfo) (sourceFolder inputFolder outputFolder : String)
    (listing : List String) (exec : String → ProcResult)
    (h : ∀ f ∈ listing, pyEndsWith f ".txt" = false) :
    run_benchmark c osName procs sourceFolder inputFolder outputFolder listing exec =
      (kill_existing_java_instances procs ++ [Event.makeDirs outputFolder], none) := by
  have hz : ∀ f ∈ listing, pyEndsWith f ".txt" = true → (exec f).returncode = 0 := by
    intro f hf htxt
    rw [h f hf] at htxt
    cases htxt
  have hc := runFiles_clean c osName (librariesOf c) (jarPathOf sourceFolder)
    inputFolder outputFolder exec listing [] hz
  rw [List.append_nil] at hc
  have hfilter : listing.filter (fun f => pyEndsWith f ".txt") = [] :=
    List.filter_eq_nil_iff.mpr (by intro a ha; simp [h a ha])
  simp only [run_benchmark, hc, hfilter]
  simp [runFiles]

/-- Witness for C10: an empty listing gives just the sweep and the mkdir. -/
theorem C10_witness :
    run_benchmark ⟨true, true, false, "605s", "/cp", "/or"⟩ "Linux" [] "/src" "/in"
        "/out" ["readme.md"] (fun _ => ⟨0, ""⟩) =
      ([Event.makeDirs "/out"], none) :=
  C10_no_matching_inputs ⟨true, true, false, "605s", "/cp", "/or"⟩ "Linux" [] "/src"
    "/in" "/out" ["readme.md"] (fun _ => ⟨0, ""⟩) (by decide)

/-- Every process in the scan whose command line mentions the packaged
artifact gets a kill attempt, wherever it sits in the scan and whether or
not it (or any other process) resists termination. -/
theorem kill_attempt_mem (procs : List ProcInfo) (p : ProcInfo) (hp : p ∈ procs)
    (hm : mentionsJar p = true) :
    Event.killAttempt p.pid ∈ kill_existing_java_instances procs := by
  induction procs with
  | nil => cases hp
  | cons q qs ih =>
    rcases List.mem_cons.mp hp with h | h
    · subst h
      cases hk : p.killable <;> simp [kill_existing_java_instances, hm, hk]
    · cases hq : mentionsJar q <;> cases hk : q.killable <;>
        simp [kill_existing_java_instances, hq, hk, ih h]

/-- The scan decomposes process by process: what happens on one process
(including a failed kill) never changes how the rest of the scan runs. -/
theorem kill_scan_decomp (p : ProcInfo) (ps : List ProcInfo) :
    kill_existing_java_instances (p :: ps) =
      kill_existing_java_instances [p] ++ kill_existing_java_instances ps := by
  cases hq : mentionsJar p <;> cases hk : p.killable <;>
    simp [kill_existing_java_instances, hq, hk]

/-- The sweep never spawns a child process. -/
theorem kill_no_spawn (procs : List ProcInfo) (cmd : List String) :
    Event.spawn cmd ∉ kill_existing_java_instances procs := by
  induction procs with
  | nil => simp [kill_existing_java_instances]
  | cons q qs ih =>
    cases hq : mentionsJar q <;> cases hk : q.killable <;>
      simp [kill_existing_java_instances, hq, hk, ih]

/-- **C9.** The stale-process sweep (lines 24-33) is best-effort and total:
every scanned process whose command line references the packaged artifact
receives a kill attempt; the scan decomposes process by process, so an
individual failure (logged as `killFailed`) never aborts the scan of the
remaining processes; and the whole benchmark run after the sweep — its
remaining trace and its outcome — is the same whatever the process table
held, so the sweep never raises and never blocks the build/run phases. -/
theorem C9_best_effort_sweep (procs : List ProcInfo) :
    (∀ p ∈ procs, mentionsJar p = true →
      Event.killAttempt p.pid ∈ kill_existing_java_instances procs) ∧
    (∀ (p : ProcInfo) (ps : List ProcInfo),
      kill_existing_java_instances (p :: ps) =
        kill_existing_java_instances [p] ++ kill_existing_java_instances ps) ∧
    (∀ (c : Config) (osName : String)
        (sourceFolder inputFolder outputFolder : String)
        (listing : List String) (exec : String → ProcResult),
      run_benchmark c osName procs sourceFolder inputFolder outputFolder listing exec =
        (kill_existing_java_instances procs ++
            (run_benchmark c osName [] sourceFolder inputFolder outputFolder
              listing exec).1,
          (run_benchmark c osName [] sourceFolder inputFolder outputFolder
            listing exec).2)) := by
  refine ⟨?_, kill_scan_decomp, ?_⟩
  · intro p hp hm
    exact kill_attempt_mem procs p hp hm
  · intro c osName sourceFolder inputFolder outputFolder listing exec
    simp [run_benchmark, kill_existing_java_instances]

set_option maxRecDepth 8000 in
/-- Witness for C9: a resisting process whose command line mentions the
artifact still gets its kill attempt. -/
theorem C9_witness :
    Event.killAttempt 7 ∈ kill_existing_java_instances
      [⟨7, some ["java", "-jar", "ChallengeSBPO2025-1.0.jar"], false⟩] :=
  (C9_best_effort_sweep
      [⟨7, some ["java", "-jar", "ChallengeSBPO2025-1.0.jar"], false⟩]).1
    ⟨7, some ["java", "-jar", "ChallengeSBPO2025-1.0.jar"], false⟩
    (by decide) (by decide)

/-- **C4.** A non-zero build exit (lines 46-49) makes `compile_code` return
`False` — in general it returns whether the exit code was zero — prints the
captured stderr, and the main block (lines 133-134) then never calls
`run_benchmark`: the whole run ends with just the error printout, and in
particular no child process is ever spawned. -/
theorem C4_build_failure_short_circuits (mvn : ProcResult)
    (h : mvn.returncode ≠ 0) :
    (compile_code mvn).1 = false ∧
    (∀ r : ProcResult, (compile_code r).1 = true ↔ r.returncode = 0) ∧
    (compile_code mvn).2 = [Event.printedErr mvn.stderr] ∧
    (∀ (c : Config) (osName : String) (procs : List ProcInfo)
        (sourceFolder inputFolder outputFolder : String) (listing : List String)
        (exec : String → ProcResult),
      mainRun c osName procs sourceFolder inputFolder outputFolder listing mvn exec =
        ([Event.printedErr mvn.stderr], none) ∧
      ∀ cmd, Event.spawn cmd ∉
        (mainRun c osName procs sourceFolder inputFolder outputFolder listing
          mvn exec).1) := by
  refine ⟨by simp [compile_code, h], ?_, by simp [compile_code, h], ?_⟩
  · intro r
    by_cases hr : r.returncode = 0 <;> simp [compile_code, hr]
  · intro c osName procs sourceFolder inputFolder outputFolder listing exec
    have hm : mainRun c osName procs sourceFolder inputFolder outputFolder listing
        mvn exec = ([Event.printedErr mvn.stderr], none) := by
      simp [mainRun, compile_code, h]
    exact ⟨hm, by rw [hm]; simp⟩

/-- Witness for C4: a build exiting 1 ends the run with only the error
printout. -/
theorem C4_witness :
    mainRun ⟨true, true, false, "605s", "/cp", "/or"⟩ "Linux" [] "/src" "/in" "/out"
        ["a.txt"] ⟨1, "mvn err"⟩ (fun _ => ⟨0, ""⟩) =
      ([Event.printedErr "mvn err"], none) :=
  ((C4_build_failure_short_circuits ⟨1, "mvn err"⟩ (by decide)).2.2.2
    ⟨true, true, false, "605s", "/cp", "/or"⟩ "Linux" [] "/src" "/in" "/out"
    ["a.txt"] (fun _ => ⟨0, ""⟩)).1

/-- The directories `os.makedirs` has to consider for a path with
`/`-separated components `comps`: every non-empty prefix of the component
list, parents first. -/
def dirChain (comps : List String) : List (List String) :=
  (List.range comps.length).map (fun i => comps.take (i + 1))

/-- The effect of `os.makedirs(path, exist_ok=True)` (line 60) on the set
of existing directories (each identified by its component list): every
prefix of the path that does not yet exist is created, parents first;
`exist_ok=True` means nothing is raised and nothing changes for a prefix
that already exists. -/
def applyMakeDirs (fs : List (List String)) (comps : List String) :
    List (List String) :=
  fs ++ (dirChain comps).filter (fun d => decide (d ∉ fs))

/-- **C8.** The `os.makedirs(output_folder, exist_ok=True)` call (line 60)
comes before every child-process spawn: the benchmark trace is the sweep
(which spawns nothing), then the `makeDirs` event, then the loop.  Its
effect on any starting file system creates the output directory and all of
its missing parent prefixes, and when the directory chain already exists
the file system is left unchanged and the run proceeds anyway. -/
theorem C8_output_dir_created (c : Config) (osName : String)
    (procs : List ProcInfo) (sourceFolder inputFolder outputFolder : String)
    (listing : List String) (exec : String → ProcResult)
    (fs : List (List String)) (comps : List String) (hne : comps ≠ []) :
    (∃ evs, (run_benchmark c osName procs sourceFolder inputFolder outputFolder
          listing exec).1 =
        kill_existing_java_instances procs ++ Event.makeDirs outputFolder :: evs ∧
      ∀ cmd, Event.spawn cmd ∉ kill_existing_java_instances procs) ∧
    comps ∈ applyMakeDirs fs comps ∧
    (∀ i, i < comps.length → comps.take (i + 1) ∈ applyMakeDirs fs comps) ∧
    ((∀ i, i < comps.length → comps.take (i + 1) ∈ fs) →
      applyMakeDirs fs comps = fs) := by
  have htake : comps.take comps.length = comps := List.take_length comps
  have hlen : 0 < comps.length := List.length_pos.mpr hne
  have hmem_chain : ∀ i, i < comps.length → comps.take (i + 1) ∈ dirChain comps := by
    intro i hi
    exact List.mem_map.mpr ⟨i, List.mem_range.mpr hi, rfl⟩
  have hpre : ∀ i, i < comps.length → comps.take (i + 1) ∈ applyMakeDirs fs comps := by
    intro i hi
    by_cases hin : comps.take (i + 1) ∈ fs
    · exact List.mem_append_left _ hin
    · refine List.mem_append_right _ (List.mem_filter.mpr ⟨hmem_chain i hi, ?_⟩)
      simpa using hin
  refine ⟨⟨(runFiles c osName (librariesOf c) (jarPathOf sourceFolder) inputFolder
      outputFolder exec listing).1, rfl, kill_no_spawn procs⟩, ?_, hpre, ?_⟩
  · have := hpre (comps.length - 1) (by omega)
    rwa [Nat.sub_add_cancel hlen, htake] at this
  · intro hall
    have hfil : (dirChain comps).filter (fun d => decide (d ∉ fs)) = [] := by
      refine List.filter_eq_nil_iff.mpr ?_
      intro d hd
      obtain ⟨i, hi, hdi⟩ := List.mem_map.mp hd
      subst hdi
      simpa using hall i (List.mem_range.mp hi)
    unfold applyMakeDirs
    rw [hfil]
    exact List.append_nil fs

/-- Witness for C8: creating `/out/results` from an empty file system yields
both the directory and its parent. -/
theorem C8_witness :
    ["", "out"] ∈ applyMakeDirs [] ["", "out"] :=
  (C8_output_dir_created ⟨true, true, false, "605s", "/cp", "/or"⟩ "Linux" []
    "/src" "/in" "/out" [] (fun _ => ⟨0, ""⟩) [] ["", "out"] (by decide)).2.1

/-- The invocation grammar as §4.1 and §6 of the specification state it:
an optional timeout-wrapper part (wrapper binary chosen by OS family, then
the fixed duration, present only when the timeout feature is enabled), the
executable name, a native-library-path flag present exactly when at least
one library is enabled, the two fixed capability/memory flags, the
executable-artifact flag with the artifact path, then the input and output
paths as positional arguments. -/
def specCommandShape (c : Config) (osName jar inputFile outputFile : String) :
    List String :=
  (if c.useTimeout then
      [if osName = "Darwin" then "gtimeout" else "timeout", c.maxRunningTime]
    else [])
    ++ ["java"]
    ++ (if c.useCplex || c.useOrTools then
          ["-Djava.library.path=" ++ ((librariesOf c).getD "")]
        else [])
    ++ ["--enable-native-access=ALL-UNNAMED", "-Xmx16g", "-jar", jar,
        inputFile, outputFile]

/-- **C7.** For every input file the constructed command (lines 73-76 and
90-102) has exactly the shape the specification describes, given that the
two configured library locations are non-empty strings (the source's
`$HOME`-derived constants always are; the hypotheses rule out the empty
string, which Python's truthiness test on `libraries` would drop).  The
child is run synchronously with stderr captured, which the model reflects
by the blocking `exec` environment and the `stderr` field it returns. -/
theorem C7_command_shape (c : Config) (osName jar inputDir outputDir f : String)
    (hc : c.cplexPath ≠ "") (ho : c.orToolsPath ≠ "") :
    cmdFor c osName (librariesOf c) jar inputDir outputDir f =
      specCommandShape c osName jar (osJoin inputDir f)
        (osJoin outputDir (outName f)) := by
  have hone : (":" : String).length = 1 := rfl
  have hboth : c.orToolsPath ++ ":" ++ c.cplexPath ≠ "" := by
    intro h
    have hlen := congrArg String.length h
    simp [String.length_append, hone] at hlen
  cases hcp : c.useCplex <;> cases hor : c.useOrTools <;>
    simp [cmdFor, javaCmd, librariesOf, specCommandShape, timeoutWrap, hcp, hor,
      hc, ho, hboth]

/-- Witness for C7 at a concrete configuration with both libraries and the
timeout enabled, on the Darwin OS family. -/
theorem C7_witness :
    cmdFor ⟨true, true, true, "605s", "/cp", "/or"⟩ "Darwin"
        (librariesOf ⟨true, true, true, "605s", "/cp", "/or"⟩) "/j" "/in" "/out"
        "a.txt" =
      specCommandShape ⟨true, true, true, "605s", "/cp", "/or"⟩ "Darwin" "/j"
        (osJoin "/in" "a.txt") (osJoin "/out" (outName "a.txt")) :=
  C7_command_shape ⟨true, true, true, "605s", "/cp", "/or"⟩ "Darwin" "/j" "/in"
    "/out" "a.txt" (by decide) (by decide)

/-- Pushing `splitScan` through the reversed suffix `".txt"`: the scan
passes the three trailing letters, reaches the dot, and splits exactly when
some non-dot character precedes it before any separator. -/
theorem splitScan_txt (acc r : List Char) :
    splitScan acc ('t' :: 'x' :: 't' :: '.' :: r) =
      if stemHasNonDot r then some (r, '.' :: 't' :: 'x' :: 't' :: acc)
      else none := by
  simp [splitScan]

/-- The central `splitext` fact behind the output-path derivation: for any
input name `f` ending in `".txt"`, appending `".txt"` to the root that
`splitext` extracts from `f` is split back into exactly that root and the
extension `".txt"`.  (When `f` has a recognised `.txt` extension the root
plus `".txt"` is `f` itself; when the `.txt` is not a recognised extension,
as in the dot-file `".txt"`, the root is all of `f` and the appended copy
becomes the extension.) -/
theorem splitext_base_append (f : String) (hf : pyEndsWith f ".txt" = true) :
    splitext ((splitext f).1 ++ ".txt") = ((splitext f).1, ".txt") := by
  have hsuf : (".txt" : String).data <:+ f.data := of_decide_eq_true hf
  obtain ⟨g, hg⟩ := hsuf
  have hdata : f.data = g ++ ['.', 't', 'x', 't'] := by
    rw [← hg]
  have hrev : f.data.reverse = 't' :: 'x' :: 't' :: '.' :: g.reverse := by
    rw [hdata]
    simp
  cases hstem : stemHasNonDot g.reverse with
  | true =>
    have h1 : splitext f = (String.mk g, ".txt") := by
      simp [splitext, hrev, splitScan_txt, hstem]
    rw [h1]
    have hrev2 : (String.mk g ++ ".txt").data.reverse =
        't' :: 'x' :: 't' :: '.' :: g.reverse := by
      simp [String.data_append]
    simp [splitext, hrev2, splitScan_txt, hstem]
  | false =>
    have h1 : splitext f = (f, "") := by
      simp [splitext, hrev, splitScan_txt, hstem]
    rw [h1]
    have hrev2 : (f ++ ".txt").data.reverse =
        't' :: 'x' :: 't' :: '.' :: ('t' :: 'x' :: 't' :: '.' :: g.reverse) := by
      simp [String.data_append, hdata]
    have hstem2 : stemHasNonDot ('t' :: 'x' :: 't' :: '.' :: g.reverse) = true := by
      simp [stemHasNonDot]
    simp only [splitext, hrev2, splitScan_txt, hstem2, if_true]
    have hfst : String.mk ('t' :: 'x' :: 't' :: '.' :: g.reverse).reverse = f := by
      have hr : ('t' :: 'x' :: 't' :: '.' :: g.reverse).reverse =
          g ++ ['.', 't', 'x', 't'] := by simp
      rw [hr, ← hdata]
    rw [hfst]

/-- The last element of every constructed command is the derived output
path: the output directory joined with the input name's root plus
`".txt"`. -/
theorem cmdFor_getLast (c : Config) (osName : String) (libraries : Option String)
    (jarPath inputDir outputDir f : String) :
    (cmdFor c osName libraries jarPath inputDir outputDir f).getLast? =
      some (osJoin outputDir (outName f)) := by
  cases libraries with
  | none => simp [cmdFor, javaCmd, List.getLast?_append]
  | some l =>
    by_cases hl : l = "" <;> simp [cmdFor, javaCmd, List.getLast?_append, hl]

/-- **C6.** For every recognised input file the derived output path
(lines 86-87) is the output directory joined with the input name's root
with the extension replaced by `".txt"`: splitting the derived output name
gives back the same root (same base name), the output name again carries
the `.txt` suffix, the output path — the command's final positional
argument — is the same whatever the input directory is, and the concrete
input `case_001.txt` maps to output name `case_001.txt` (hence output path
`<outputDir>/case_001.txt`). -/
theorem C6_output_path (c : Config) (osName : String) (libraries : Option String)
    (jarPath inputDir outputDir f : String)
    (hf : pyEndsWith f ".txt" = true) :
    (splitext (outName f)).1 = (splitext f).1 ∧
    pyEndsWith (outName f) ".txt" = true ∧
    (∀ inDirA inDirB : String,
      (cmdFor c osName libraries jarPath inDirA outputDir f).getLast? =
        (cmdFor c osName libraries jarPath inDirB outputDir f).getLast?) ∧
    (cmdFor c osName libraries jarPath inputDir outputDir f).getLast? =
      some (osJoin outputDir (outName f)) ∧
    outName "case_001.txt" = "case_001.txt" := by
  refine ⟨?_, ?_, ?_, cmdFor_getLast c osName libraries jarPath inputDir outputDir f, by decide⟩
  · rw [outName, splitext_base_append f hf]
  · have hsuf : (".txt" : String).data <:+ (outName f).data := by
      rw [outName, String.data_append]
      exact List.suffix_append _ _
    exact decide_eq_true hsuf
  · intro inDirA inDirB
    rw [cmdFor_getLast c osName libraries jarPath inDirA outputDir f,
      cmdFor_getLast c osName libraries jarPath inDirB outputDir f]

/-- Witness for C6 at the spec's own example `case_001.txt`: the command's
final argument is the output directory joined with `case_001.txt`. -/
theorem C6_witness :
    (cmdFor ⟨true, true, false, "605s", "/cp", "/or"⟩ "Linux" none "/j" "/in"
        "/out" "case_001.txt").getLast? =
      some (osJoin "/out" (outName "case_001.txt")) :=
  (C6_output_path ⟨true, true, false, "605s", "/cp", "/or"⟩ "Linux" none "/j"
    "/in" "/out" "case_001.txt" (by decide)).2.2.2.1

end RunChallenge
